import Mathlib

/-!
Verification development for the raw-modal session protocol of
RPGClub_GameDB.  The TypeScript sources are shallowly embedded: the
Oracle-backed session table becomes a list of records and each SQL
statement becomes the corresponding pure transformation of that list;
strings are modelled as lists of characters so that the colon-splitting
of wire identifiers can be reasoned about directly; JavaScript values
flowing through the loosely typed submission payloads become an explicit
variant type.  Times are modelled as integers (milliseconds since epoch,
the value of Date.getTime in the source).
-/

/-- Status column of RPG_CLUB_RAW_MODAL_SESSIONS, from RawModalSession.ts.
The source stores OPEN, SUBMITTED, EXPIRED uppercase and maps them to the
lowercase union type; the constructor opened stands for the source's
open (a Lean keyword). -/
inductive RawModalSessionStatus where
  | opened
  | submitted
  | expired
deriving DecidableEq

/-- One row of RPG_CLUB_RAW_MODAL_SESSIONS as surfaced by
mapRawModalSessionRow in RawModalSession.ts (bookkeeping columns
CREATED_AT and UPDATED_AT are maintained by the database trigger and not
read by any of the operations modelled here). -/
structure RawModalSessionRecord where
  sessionId : List Char
  feature : List Char
  flow : List Char
  ownerUserId : List Char
  guildId : Option (List Char)
  channelId : Option (List Char)
  stateJson : List Char
  status : RawModalSessionStatus
  expiresAt : Int
deriving DecidableEq

/-- The durable session table, keyed by SESSION_ID in the database. -/
abbrev RawModalSessionTable := List RawModalSessionRecord

/-- Row predicate of the conditional UPDATE inside
claimRawModalSessionForSubmit: SESSION_ID matches, OWNER_USER_ID matches,
STATUS = OPEN and EXPIRES_AT > now. -/
def claimMatches (sessionId ownerUserId : List Char) (now : Int)
    (r : RawModalSessionRecord) : Bool :=
  decide (r.sessionId = sessionId ∧ r.ownerUserId = ownerUserId ∧
    r.status = RawModalSessionStatus.opened ∧ now < r.expiresAt)

/-- Effect of the claim UPDATE on a single row: matching rows get
STATUS = SUBMITTED, all other rows are untouched. -/
def rawModalClaimStep (sessionId ownerUserId : List Char) (now : Int)
    (r : RawModalSessionRecord) : RawModalSessionRecord :=
  if claimMatches sessionId ownerUserId now r then
    { r with status := RawModalSessionStatus.submitted }
  else r

/-- claimRawModalSessionForSubmit from RawModalSession.ts: one atomic
conditional UPDATE with autoCommit; the returned boolean is
rowsAffected > 0 (a no-rows-matched outcome is the boolean false, not an
error). -/
def claimRawModalSessionForSubmit (sessionId ownerUserId : List Char)
    (now : Int) (tbl : RawModalSessionTable) : Bool × RawModalSessionTable :=
  (tbl.any (claimMatches sessionId ownerUserId now),
    tbl.map (rawModalClaimStep sessionId ownerUserId now))

/-- Effect of the unconditional status UPDATE on a single row: rows with
the addressed SESSION_ID get the new status, all other rows are
untouched. -/
def rawModalSetStatusStep (sessionId : List Char)
    (status : RawModalSessionStatus) (r : RawModalSessionRecord) :
    RawModalSessionRecord :=
  if decide (r.sessionId = sessionId) then { r with status := status }
  else r

/-- updateRawModalSessionStatus from RawModalSession.ts: unconditional
UPDATE of STATUS on every row whose SESSION_ID matches; returns
rowsAffected > 0. -/
def updateRawModalSessionStatus (sessionId : List Char)
    (status : RawModalSessionStatus) (tbl : RawModalSessionTable) :
    Bool × RawModalSessionTable :=
  (tbl.any (fun r => decide (r.sessionId = sessionId)),
    tbl.map (rawModalSetStatusStep sessionId status))

/-- expireRawModalSession from RawModalSession.ts: delegates to
updateRawModalSessionStatus with status expired. -/
def expireRawModalSession (sessionId : List Char)
    (tbl : RawModalSessionTable) : Bool × RawModalSessionTable :=
  updateRawModalSessionStatus sessionId RawModalSessionStatus.expired tbl

/-- getRawModalSessionRecord from RawModalSession.ts: SELECT by primary
key SESSION_ID; the first matching row or null. -/
def getRawModalSessionRecord (sessionId : List Char)
    (tbl : RawModalSessionTable) : Option RawModalSessionRecord :=
  tbl.find? (fun r => decide (r.sessionId = sessionId))

/-- Row predicate of the DELETE inside deleteExpiredRawModalSessions:
EXPIRES_AT < cutoffDate and STATUS in (OPEN, EXPIRED). -/
def sweepRemoves (cutoffDate : Int) (r : RawModalSessionRecord) : Bool :=
  decide (r.expiresAt < cutoffDate ∧
    (r.status = RawModalSessionStatus.opened ∨
      r.status = RawModalSessionStatus.expired))

/-- deleteExpiredRawModalSessions from RawModalSession.ts: DELETE of the
stale non-submitted rows, returning rowsAffected. -/
def deleteExpiredRawModalSessions (cutoffDate : Int)
    (tbl : RawModalSessionTable) : Nat × RawModalSessionTable :=
  (tbl.countP (sweepRemoves cutoffDate),
    tbl.filter (fun r => ! sweepRemoves cutoffDate r))

/-- isRawModalSessionExpired from RawModalSession.ts:
session.expiresAt.getTime() <= now.getTime(). -/
def isRawModalSessionExpired (expiresAt now : Int) : Bool :=
  decide (expiresAt ≤ now)

/-- Serialisation of N delivery attempts that race on the same session:
each attempt is one atomic conditional UPDATE (the autoCommit statement
of claimRawModalSessionForSubmit), so any interleaving of N concurrent
calls is some sequential order of N atomic store transitions.  Returns
how many calls reported success together with the final table. -/
def runRawModalClaims (sessionId ownerUserId : List Char) (now : Int) :
    Nat → RawModalSessionTable → Nat × RawModalSessionTable
  | 0, tbl => (0, tbl)
  | n + 1, tbl =>
    let first := claimRawModalSessionForSubmit sessionId ownerUserId now tbl
    let rest := runRawModalClaims sessionId ownerUserId now n first.2
    ((if first.1 then 1 else 0) + rest.1, rest.2)

/-- RAW_MODAL_CUSTOM_ID_PREFIX from RawModalScope.ts, the leading segment
of every managed wire identifier. -/
def RAW_MODAL_CUSTOM_ID_HEAD : List Char := "modal".data

/-- RAW_MODAL_SCHEMA_VERSION from RawModalScope.ts. -/
def RAW_MODAL_SCHEMA_VERSION : Nat := 1

/-- RAW_MODAL_SUPPORTED_FEATURES from RawModalScope.ts. -/
def RAW_MODAL_SUPPORTED_FEATURES : List (List Char) :=
  ["todo".data, "suggestion".data, "nominate".data, "round-history".data]

/-- RAW_MODAL_TODO_PILOT_FLOWS from RawModalScope.ts. -/
def RAW_MODAL_TODO_PILOT_FLOWS : List (List Char) :=
  ["create".data, "comment".data, "edit-title".data,
    "edit-description".data, "query".data]

/-- RAW_MODAL_SUGGESTION_PILOT_FLOWS from RawModalScope.ts. -/
def RAW_MODAL_SUGGESTION_PILOT_FLOWS : List (List Char) :=
  ["review-decision".data]

/-- RAW_MODAL_NOMINATE_FLOWS from RawModalScope.ts. -/
def RAW_MODAL_NOMINATE_FLOWS : List (List Char) := ["create".data]

/-- RAW_MODAL_ROUND_HISTORY_FLOWS from RawModalScope.ts. -/
def RAW_MODAL_ROUND_HISTORY_FLOWS : List (List Char) := ["query".data]

/-- The closed vocabulary of the RawModalFlow union type: the four flow
lists of RawModalScope.ts taken together. -/
def RAW_MODAL_FLOWS : List (List Char) :=
  RAW_MODAL_TODO_PILOT_FLOWS ++ RAW_MODAL_SUGGESTION_PILOT_FLOWS ++
    RAW_MODAL_NOMINATE_FLOWS ++ RAW_MODAL_ROUND_HISTORY_FLOWS

/-- RAW_MODAL_PILOT_FEATURES from RawModalScope.ts: the features routed
through the managed pilot path. -/
def RAW_MODAL_PILOT_FEATURES : List (List Char) :=
  ["todo".data, "suggestion".data]

/-- MAX_DISCORD_CUSTOM_ID_LENGTH from RawModalCustomId.ts. -/
def MAX_DISCORD_CUSTOM_ID_LENGTH : Nat := 100

/-- isSupportedFeature from RawModalCustomId.ts: membership in
RAW_MODAL_SUPPORTED_FEATURES. -/
def isSupportedFeature (value : List Char) : Bool :=
  decide (value ∈ RAW_MODAL_SUPPORTED_FEATURES)

/-- isSupportedFlow from RawModalCustomId.ts.  Note that the source tests
membership in RAW_MODAL_TODO_PILOT_FLOWS only, not in the full
RawModalFlow vocabulary. -/
def isSupportedFlow (value : List Char) : Bool :=
  decide (value ∈ RAW_MODAL_TODO_PILOT_FLOWS)

/-- Character class of SESSION_ID_PATTERN in RawModalCustomId.ts:
uppercase and lowercase ASCII letters, digits, underscore and hyphen. -/
def isRawModalSessionIdChar (c : Char) : Bool :=
  decide (('A' ≤ c ∧ c ≤ 'Z') ∨ ('a' ≤ c ∧ c ≤ 'z') ∨
    ('0' ≤ c ∧ c ≤ '9') ∨ c = '_' ∨ c = '-')

/-- isSessionIdValid from RawModalCustomId.ts: the anchored regular
expression test of SESSION_ID_PATTERN, between 1 and 64 characters all
drawn from the session-id character class. -/
def isSessionIdValid (sessionId : List Char) : Bool :=
  decide (1 ≤ sessionId.length ∧ sessionId.length ≤ 64) &&
    sessionId.all isRawModalSessionIdChar

/-- Splitting a character sequence at a separator, the semantics of the
JavaScript String.split with a single-character separator (an empty
input yields one empty segment, n separators yield n + 1 segments). -/
def splitOnChar (sep : Char) : List Char → List (List Char)
  | [] => [[]]
  | c :: rest =>
    if c = sep then [] :: splitOnChar sep rest
    else
      match splitOnChar sep rest with
      | [] => [[c]]
      | s :: ss => (c :: s) :: ss

/-- Joining segments with a colon, the semantics of Array.join in
buildRawModalCustomId. -/
def joinColon : List (List Char) → List Char
  | [] => []
  | [x] => x
  | x :: xs => x ++ ':' :: joinColon xs

/-- JavaScript whitespace characters skipped by parseInt before reading
digits (the common ASCII ones; the wire identifiers under study never
carry the exotic Unicode spaces). -/
def isJsSpace (c : Char) : Bool :=
  decide (c = ' ' ∨ c = '\t' ∨ c = '\n' ∨ c = '\r' ∨
    c = Char.ofNat 11 ∨ c = Char.ofNat 12)

/-- Sign handling of parseInt: an optional single leading plus or minus
after the whitespace. -/
def parseIntSign : List Char → Int × List Char
  | '-' :: rest => (-1, rest)
  | '+' :: rest => (1, rest)
  | rest => (1, rest)

/-- Value of a string of decimal digit characters. -/
def digitsToNat (ds : List Char) : Nat :=
  ds.foldl (fun acc c => acc * 10 + (c.toNat - '0'.toNat)) 0

/-- Number.parseInt with radix 10 as used by parseRawModalCustomId:
skip leading whitespace, read an optional sign, then take the maximal
run of leading decimal digits; the result is NaN (here none) when that
run is empty, and any characters after the digit run are ignored. -/
def parseIntDec (s : List Char) : Option Int :=
  let afterSpace := s.dropWhile isJsSpace
  let signed := parseIntSign afterSpace
  let digits := signed.2.takeWhile (fun c => decide ('0' ≤ c ∧ c ≤ '9'))
  if digits = [] then none
  else some (signed.1 * (digitsToNat digits : Int))

/-- Input record of buildRawModalCustomId (IRawModalCustomIdParts). -/
structure RawModalCustomIdParts where
  feature : List Char
  flow : List Char
  sessionId : List Char
deriving DecidableEq

/-- Result record of parseRawModalCustomId (IRawModalParsedCustomId). -/
structure RawModalParsedCustomId where
  feature : List Char
  flow : List Char
  sessionId : List Char
  version : Int
deriving DecidableEq

/-- buildRawModalCustomId from RawModalCustomId.ts.  The thrown errors of
the source become the error branch of Except. -/
def buildRawModalCustomId (parts : RawModalCustomIdParts) :
    Except String (List Char) :=
  if ¬ isSupportedFeature parts.feature then
    Except.error "Unsupported raw modal feature."
  else if ¬ isSupportedFlow parts.flow then
    Except.error "Unsupported raw modal flow."
  else if ¬ isSessionIdValid parts.sessionId then
    Except.error "Raw modal sessionId contains unsupported characters."
  else
    let customId := joinColon [RAW_MODAL_CUSTOM_ID_HEAD, parts.feature,
      'v' :: Nat.toDigits 10 RAW_MODAL_SCHEMA_VERSION, parts.flow,
      parts.sessionId]
    if MAX_DISCORD_CUSTOM_ID_LENGTH < customId.length then
      Except.error "Raw modal custom id length exceeds 100 characters."
    else Except.ok customId

/-- Checks parseRawModalCustomId runs on the five destructured segments,
in source order: the truthiness test on every segment, the prefix
comparison, the feature and flow vocabulary tests, the leading v of the
version segment, the session id rule, then Number.parseInt on the rest
of the version segment with the finiteness and at-least-one guard. -/
def parseRawModalFive (p0 p1 p2 p3 p4 : List Char) :
    Option RawModalParsedCustomId :=
  if p0 = [] ∨ p1 = [] ∨ p2 = [] ∨ p3 = [] ∨ p4 = [] then none
  else if p0 ≠ RAW_MODAL_CUSTOM_ID_HEAD then none
  else if ¬ (isSupportedFeature p1 ∧ isSupportedFlow p3) then none
  else if p2.head? ≠ some 'v' then none
  else if ¬ isSessionIdValid p4 then none
  else
    match parseIntDec (p2.drop 1) with
    | none => none
    | some v =>
      if v < 1 then none
      else some { feature := p1, flow := p3, sessionId := p4, version := v }

/-- Segment phase of parseRawModalCustomId: the JavaScript array
destructuring reads the first five segments of the split and any further
segments are never looked at; when fewer than five segments exist the
missing ones are undefined and fail the same truthiness test that
rejects an empty segment, so those shapes return null. -/
def parseRawModalSegments (parts : List (List Char)) :
    Option RawModalParsedCustomId :=
  match parts with
  | p0 :: p1 :: p2 :: p3 :: p4 :: _ => parseRawModalFive p0 p1 p2 p3 p4
  | _ => none

/-- parseRawModalCustomId from RawModalCustomId.ts: split the incoming
identifier on colons and run the segment checks of the source in their
original order. -/
def parseRawModalCustomId (customId : List Char) :
    Option RawModalParsedCustomId :=
  parseRawModalSegments (splitOnChar ':' customId)

/-- JavaScript values as they flow through the loosely typed submission
payloads (typeof dispatch needs to distinguish null, undefined, strings,
booleans, numbers and arrays). -/
inductive JsVal where
  | vNull
  | vUndefined
  | vStr (s : List Char)
  | vBool (b : Bool)
  | vNum (n : Int)
  | vArr (elems : List JsVal)

/-- Component type tags dispatched on by the two validators (the numeric
ComponentType values of the Discord API are irrelevant to the claims, so
the enumeration is kept symbolic; constructor other stands for every tag
outside the listed ones and lands in the default branch). -/
inductive DiscordComponentType where
  | actionRow
  | label
  | textInput
  | stringSelect
  | userSelect
  | roleSelect
  | mentionableSelect
  | channelSelect
  | fileUpload
  | checkboxGroup
  | radioGroup
  | checkbox
  | other
deriving DecidableEq

/-- One flattened leaf field of a submitted modal, as both validators see
it: the custom id and value slots hold raw JavaScript values, and
attachmentKeys lists the keys of the attachment-resolution table the
field can see (field.attachments for the router validator). -/
structure RawModalField where
  customId : JsVal
  type : DiscordComponentType
  value : JsVal
  values : JsVal
  attachmentKeys : List (List Char)

/-- Result shape IRawModalSubmitValidationResult of
RawModalSubmitValidation.ts. -/
structure RawModalSubmitValidationResult where
  ok : Bool
  reason : Option String := none
deriving DecidableEq

/-- isNonEmptyString from RawModalSubmitValidation.ts. -/
def isNonEmptyString : JsVal → Bool
  | JsVal.vStr s => decide (0 < s.length)
  | _ => false

/-- validateCustomId from RawModalSubmitValidation.ts. -/
def validateCustomId (customId : JsVal) : RawModalSubmitValidationResult :=
  if ¬ isNonEmptyString customId then
    { ok := false, reason := some "component custom id is missing" }
  else
    match customId with
    | JsVal.vStr s =>
      if 100 < s.length then
        { ok := false, reason := some "component custom id exceeds 100 characters" }
      else { ok := true }
    | _ => { ok := false, reason := some "component custom id is missing" }

/-- validateSelectValues from RawModalSubmitValidation.ts: an array of at
most 25 strings. -/
def validateSelectValues (values : JsVal) : RawModalSubmitValidationResult :=
  match values with
  | JsVal.vArr xs =>
    if 25 < xs.length then
      { ok := false, reason := some "select values exceed allowed limit" }
    else if ¬ xs.all (fun v => match v with | JsVal.vStr _ => true | _ => false) then
      { ok := false, reason := some "select values contain a non-string value" }
    else { ok := true }
  | _ => { ok := false, reason := some "select values must be an array" }

/-- Loop body of validateFileUploadValues: each entry must be a non-empty
string resolving against the attachment table, first violation wins. -/
def checkFileUploadEntries (attachmentIds : List (List Char)) :
    List JsVal → RawModalSubmitValidationResult
  | [] => { ok := true }
  | JsVal.vStr s :: rest =>
    if s.length = 0 then
      { ok := false, reason := some "file upload attachment id is invalid" }
    else if ¬ decide (s ∈ attachmentIds) then
      { ok := false, reason := some "file upload attachment id is unresolved" }
    else checkFileUploadEntries attachmentIds rest
  | _ :: _ =>
    { ok := false, reason := some "file upload attachment id is invalid" }

/-- validateFileUploadValues from RawModalSubmitValidation.ts: a
non-empty array of at most 10 resolvable attachment ids. -/
def validateFileUploadValues (values : JsVal)
    (attachmentIds : List (List Char)) : RawModalSubmitValidationResult :=
  match values with
  | JsVal.vArr xs =>
    if xs.length = 0 then
      { ok := false, reason := some "file upload must contain at least one attachment id" }
    else if 10 < xs.length then
      { ok := false, reason := some "file upload contains too many attachment ids" }
    else checkFileUploadEntries attachmentIds xs
  | _ => { ok := false, reason := some "file upload must contain at least one attachment id" }

/-- validateModalField from RawModalSubmitValidation.ts, the per-field
dispatch of the validator the interaction router runs on submissions.
Its switch handles text inputs, the five entity selectors and file
uploads; every other component type, radio groups included, falls into
the default branch. -/
def validateModalField (field : RawModalField) : RawModalSubmitValidationResult :=
  if ¬ (validateCustomId field.customId).ok then validateCustomId field.customId
  else
    match field.type with
    | DiscordComponentType.textInput =>
      match field.value with
      | JsVal.vStr s =>
        if 4000 < s.length then
          { ok := false, reason := some "text input value exceeds max length" }
        else { ok := true }
      | _ => { ok := false, reason := some "text input value must be a string" }
    | DiscordComponentType.stringSelect => validateSelectValues field.values
    | DiscordComponentType.userSelect => validateSelectValues field.values
    | DiscordComponentType.roleSelect => validateSelectValues field.values
    | DiscordComponentType.mentionableSelect => validateSelectValues field.values
    | DiscordComponentType.channelSelect => validateSelectValues field.values
    | DiscordComponentType.fileUpload =>
      validateFileUploadValues field.values field.attachmentKeys
    | _ => { ok := false, reason := some "unsupported modal field type" }

/-- Select branch of RawModalApiService.validateSubmitComponents: an
array whose entries are all strings (the 25-element bound exists only in
the router-side validator). -/
def validateApiSelectValues (values : JsVal) : RawModalSubmitValidationResult :=
  match values with
  | JsVal.vArr xs =>
    if ¬ xs.all (fun v => match v with | JsVal.vStr _ => true | _ => false) then
      { ok := false, reason := some "select values are invalid" }
    else { ok := true }
  | _ => { ok := false, reason := some "select values are invalid" }

/-- Loop body of RawModalApiService.validateSubmitComponents for one
flattened component (duplicate-id tracking lives in the surrounding
loop): the isModalSubmitComponent shape guard, the custom id bounds, and
the per-type switch, which does handle checkbox groups, radio groups and
boolean checkboxes. -/
def validateSubmitComponentEntry (resolvedAttachmentIds : List (List Char))
    (component : RawModalField) : RawModalSubmitValidationResult :=
  match component.customId with
  | JsVal.vStr cid =>
    if cid.length = 0 ∨ 100 < cid.length then
      { ok := false, reason := some "component custom id is missing or too long" }
    else
      match component.type with
      | DiscordComponentType.textInput =>
        match component.value with
        | JsVal.vStr s =>
          if 4000 < s.length then
            { ok := false, reason := some "text input value is invalid" }
          else { ok := true }
        | _ => { ok := false, reason := some "text input value is invalid" }
      | DiscordComponentType.stringSelect =>
        validateApiSelectValues component.values
      | DiscordComponentType.userSelect =>
        validateApiSelectValues component.values
      | DiscordComponentType.roleSelect =>
        validateApiSelectValues component.values
      | DiscordComponentType.mentionableSelect =>
        validateApiSelectValues component.values
      | DiscordComponentType.channelSelect =>
        validateApiSelectValues component.values
      | DiscordComponentType.checkboxGroup =>
        validateApiSelectValues component.values
      | DiscordComponentType.fileUpload =>
        match component.values with
        | JsVal.vArr xs =>
          if xs.length = 0 then
            { ok := false, reason := some "file upload values are invalid" }
          else if ¬ xs.all (fun v => match v with
              | JsVal.vStr s => decide (s ∈ resolvedAttachmentIds)
              | _ => false) then
            { ok := false, reason := some "file upload attachment id is unresolved" }
          else { ok := true }
        | _ => { ok := false, reason := some "file upload values are invalid" }
      | DiscordComponentType.radioGroup =>
        match component.value with
        | JsVal.vNull => { ok := true }
        | JsVal.vStr _ => { ok := true }
        | _ => { ok := false, reason := some "radio group value is invalid" }
      | DiscordComponentType.checkbox =>
        match component.value with
        | JsVal.vBool _ => { ok := true }
        | _ => { ok := false, reason := some "checkbox value is invalid" }
      | _ => { ok := false, reason := some "unsupported modal component type" }
  | _ =>
    { ok := false, reason := some "modal submission contains an invalid component entry" }

/-- Environment slice read by RawModalFeatureFlag.ts: the raw values of
USE_RAW_IMPROVED_MODALS and RAW_MODAL_PILOT_GUILD_IDS (none when the
variable is unset). -/
structure RawModalEnv where
  useRawImprovedModals : Option (List Char)
  rawModalPilotGuildIds : Option (List Char)

/-- RAW_MODAL_ALL_GUILDS_TOKEN from RawModalFeatureFlag.ts. -/
def RAW_MODAL_ALL_GUILDS_TOKEN : List Char := "*".data

/-- JavaScript String.trim for the characters appearing in environment
values: whitespace stripped from both ends. -/
def jsTrim (s : List Char) : List Char :=
  ((s.dropWhile isJsSpace).reverse.dropWhile isJsSpace).reverse

/-- ASCII lowercasing, the effect of toLowerCase on the configuration
values in play. -/
def toLowerAscii (s : List Char) : List Char := s.map Char.toLower

/-- readBooleanEnv from RawModalFeatureFlag.ts: the variable, defaulted
to the empty string, trimmed and lowercased, compared against true. -/
def readBooleanEnvValue (value : Option (List Char)) : Bool :=
  decide (toLowerAscii (jsTrim (value.getD [])) = "true".data)

/-- isRawImprovedModalsEnabled from RawModalFeatureFlag.ts. -/
def isRawImprovedModalsEnabled (env : RawModalEnv) : Bool :=
  readBooleanEnvValue env.useRawImprovedModals

/-- parseGuildIdList from RawModalFeatureFlag.ts: split the raw value on
commas, trim each entry and drop the empty ones (the source collects the
entries into a Set, whose only observed operations are size and has, so
the filtered list is an equivalent model). -/
def parseGuildIdList (rawValue : List Char) : List (List Char) :=
  ((splitOnChar ',' rawValue).map jsTrim).filter (fun v => decide (0 < v.length))

/-- isRawModalPilotFeature from RawModalFeatureFlag.ts. -/
def isRawModalPilotFeature (feature : List Char) : Bool :=
  decide (feature ∈ RAW_MODAL_PILOT_FEATURES)

/-- isRawModalPilotEnabledForGuild from RawModalFeatureFlag.ts; the
guildId argument is optional in the source and the empty string is falsy
there, hence the explicit empty check. -/
def isRawModalPilotEnabledForGuild (env : RawModalEnv)
    (guildId : Option (List Char)) : Bool :=
  let configuredGuildIds := parseGuildIdList (env.rawModalPilotGuildIds.getD [])
  if configuredGuildIds.length = 0 then false
  else if decide (RAW_MODAL_ALL_GUILDS_TOKEN ∈ configuredGuildIds) then true
  else
    match guildId with
    | none => false
    | some g => if g = [] then false else decide (g ∈ configuredGuildIds)

/-- isRawModalPilotEnabled from RawModalFeatureFlag.ts: global switch,
then pilot-feature membership, then the guild allow-list. -/
def isRawModalPilotEnabled (env : RawModalEnv) (feature : List Char)
    (guildId : Option (List Char)) : Bool :=
  if ¬ isRawImprovedModalsEnabled env then false
  else if ¬ isRawModalPilotFeature feature then false
  else isRawModalPilotEnabledForGuild env guildId

/-- Terminal replies of handleManagedRawModalSubmit in
RawModalInteractionRouter.ts, one constructor per distinct ephemeral
message (accepted is the final acceptance reply). -/
inductive RawModalSubmitReply where
  | invalidPayload
  | sessionNotFound
  | ownerMismatch
  | sessionExpired
  | notActive
  | claimFailed
  | accepted
deriving DecidableEq

/-- handleManagedRawModalSubmit from RawModalInteractionRouter.ts as a
transformation of the session table: payload validation, session lookup,
ownership check, liveness check (expiring a still-open stale session as
a side effect), status check, then the atomic claim.  The validationOk
flag abstracts the boolean verdict of
validateRawModalSubmitInteractionPayload on the interaction, and now
stands for the clock readings of the handler (the source calls Date.now
when checking expiry and again inside the claim; the model takes the
single instant, which the claims under study never distinguish). -/
def handleManagedRawModalSubmit (sessionId userId : List Char) (now : Int)
    (validationOk : Bool) (tbl : RawModalSessionTable) :
    RawModalSubmitReply × RawModalSessionTable :=
  if ¬ validationOk then (RawModalSubmitReply.invalidPayload, tbl)
  else
    match getRawModalSessionRecord sessionId tbl with
    | none => (RawModalSubmitReply.sessionNotFound, tbl)
    | some session =>
      if session.ownerUserId ≠ userId then
        (RawModalSubmitReply.ownerMismatch, tbl)
      else if isRawModalSessionExpired session.expiresAt now then
        if session.status = RawModalSessionStatus.opened then
          (RawModalSubmitReply.sessionExpired,
            (expireRawModalSession session.sessionId tbl).2)
        else (RawModalSubmitReply.sessionExpired, tbl)
      else if session.status ≠ RawModalSessionStatus.opened then
        (RawModalSubmitReply.notActive, tbl)
      else
        let claimed := claimRawModalSessionForSubmit session.sessionId userId now tbl
        if claimed.1 then (RawModalSubmitReply.accepted, claimed.2)
        else (RawModalSubmitReply.claimFailed, claimed.2)

/-- Dispatch outcomes of tryHandleManagedRawModalInteraction: notMine and
skippedByFlag return handled = false to the caller, the rest claim the
event. -/
inductive RawModalDispatchOutcome where
  | notMine
  | invalidCustomId
  | skippedByFlag (feature flow sessionId : List Char)
  | submitHandled (sessionId : List Char)
  | nonSubmitReply
deriving DecidableEq

/-- Test used by the router for the managed identifier prefix, the
customId.startsWith check against the prefix followed by a colon. -/
def startsWithSeq : List Char → List Char → Bool
  | _, [] => true
  | [], _ :: _ => false
  | c :: s, p :: ps => decide (c = p) && startsWithSeq s ps

/-- Dispatch phase of tryHandleManagedRawModalInteraction from
RawModalInteractionRouter.ts: prefix recognition, identifier decode,
pilot gate, then the split between submissions and other component
interactions (customId is none for interactions that expose no custom
id). -/
def tryHandleManagedRawModalDispatch (env : RawModalEnv)
    (customId : Option (List Char)) (guildId : Option (List Char))
    (isModalSubmit : Bool) : RawModalDispatchOutcome :=
  match customId with
  | none => RawModalDispatchOutcome.notMine
  | some cid =>
    if ¬ startsWithSeq cid (RAW_MODAL_CUSTOM_ID_HEAD ++ [':']) then
      RawModalDispatchOutcome.notMine
    else
      match parseRawModalCustomId cid with
      | none => RawModalDispatchOutcome.invalidCustomId
      | some parsed =>
        if ¬ isRawModalPilotEnabled env parsed.feature guildId then
          RawModalDispatchOutcome.skippedByFlag parsed.feature parsed.flow
            parsed.sessionId
        else if isModalSubmit then
          RawModalDispatchOutcome.submitHandled parsed.sessionId
        else RawModalDispatchOutcome.nonSubmitReply

/-- The handled boolean tryHandleManagedRawModalInteraction reports for
each dispatch outcome. -/
def dispatchHandled : RawModalDispatchOutcome → Bool
  | RawModalDispatchOutcome.notMine => false
  | RawModalDispatchOutcome.skippedByFlag _ _ _ => false
  | _ => true

/-- IRawModalOpenRequest of RawModalContracts.ts restricted to the fields
the custom id computation of openModal reads; customId is the optional
caller-supplied override. -/
structure RawModalOpenRequest where
  feature : List Char
  flow : List Char
  sessionId : List Char
  customId : Option (List Char)
deriving DecidableEq

/-- Custom id computation of RawModalApiService.openModal: the request
override if present, otherwise buildRawModalCustomId of the request
fields, then the emptiness and 100-character guard before the payload is
assembled (thrown errors become the error branch). -/
def openModalCustomId (request : RawModalOpenRequest) :
    Except String (List Char) :=
  let built : Except String (List Char) :=
    match request.customId with
    | some c => Except.ok c
    | none =>
      buildRawModalCustomId { feature := request.feature,
                              flow := request.flow,
                              sessionId := request.sessionId }
  match built with
  | Except.error e => Except.error e
  | Except.ok customId =>
    if customId = [] ∨ 100 < customId.length then
      Except.error "Raw modal custom id is missing or exceeds 100 characters."
    else Except.ok customId

/-- buildSuggestionReviewDecisionModalId from suggestion.command.ts: the
custom id the suggestion review flow passes to openModal as override. -/
def buildSuggestionReviewDecisionModalId (reviewerId : List Char)
    (suggestionId : Nat) : List Char :=
  "suggestion-review-decision".data ++ ':' :: reviewerId ++
    ':' :: Nat.toDigits 10 suggestionId

/-- Sample stored session used to instantiate the general theorems on a
concrete input: owned by u1, OPEN, expiring at instant 100. -/
def sampleOpenRawModalSession : RawModalSessionRecord :=
  { sessionId := "s1".data, feature := "todo".data, flow := "create".data,
    ownerUserId := "u1".data, guildId := none, channelId := none,
    stateJson := "null".data, status := RawModalSessionStatus.opened,
    expiresAt := 100 }

/-- Looking a session up after a field update that keeps SESSION_ID
intact finds the image of the row the lookup found before. -/
theorem getRawModalSessionRecord_map (sessionId : List Char)
    (f : RawModalSessionRecord → RawModalSessionRecord)
    (hf : ∀ r, (f r).sessionId = r.sessionId) (tbl : RawModalSessionTable) :
    getRawModalSessionRecord sessionId (tbl.map f) =
      (getRawModalSessionRecord sessionId tbl).map f := by
  induction tbl with
  | nil => rfl
  | cons r rest ih =>
    simp only [getRawModalSessionRecord, List.map_cons, List.find?] at *
    by_cases h : r.sessionId = sessionId
    · rw [hf r] at *
      simp [h]
    · have h1 : decide ((f r).sessionId = sessionId) = false := by
        rw [hf r]; exact decide_eq_false h
      have h2 : decide (r.sessionId = sessionId) = false := decide_eq_false h
      rw [h1, h2]
      exact ih

/-- A map whose function fixes every member is the identity. -/
theorem list_map_eq_self {α : Type} (f : α → α) (l : List α)
    (h : ∀ a ∈ l, f a = a) : l.map f = l := by
  induction l with
  | nil => rfl
  | cons a rest ih =>
    simp only [List.map_cons]
    rw [h a (List.mem_cons_self a rest), ih (fun b hb => h b (List.mem_cons_of_mem a hb))]

/-- The claim step leaves SESSION_ID untouched. -/
theorem rawModalClaimStep_sessionId (sessionId ownerUserId : List Char)
    (now : Int) (r : RawModalSessionRecord) :
    (rawModalClaimStep sessionId ownerUserId now r).sessionId = r.sessionId := by
  unfold rawModalClaimStep
  split <;> rfl

/-- When no row satisfies the claim predicate, the claim UPDATE reports
failure and leaves the table unchanged. -/
theorem claimRawModalSessionForSubmit_no_match
    (sessionId ownerUserId : List Char) (now : Int)
    (tbl : RawModalSessionTable)
    (h : ∀ r ∈ tbl, claimMatches sessionId ownerUserId now r = false) :
    claimRawModalSessionForSubmit sessionId ownerUserId now tbl = (false, tbl) := by
  unfold claimRawModalSessionForSubmit
  have h1 : tbl.any (claimMatches sessionId ownerUserId now) = false :=
    List.any_eq_false.mpr (fun r hr => by simp [h r hr])
  have h2 : tbl.map (rawModalClaimStep sessionId ownerUserId now) = tbl :=
    list_map_eq_self _ _ (fun r hr => by
      unfold rawModalClaimStep
      rw [h r hr]
      rfl)
  rw [h1, h2]

/-- After any claim UPDATE no row of the resulting table satisfies the
same claim predicate: matched rows are no longer OPEN and unmatched rows
are unchanged. -/
theorem claimRawModalSessionForSubmit_post
    (sessionId ownerUserId : List Char) (now : Int)
    (tbl : RawModalSessionTable) :
    ∀ r ∈ (claimRawModalSessionForSubmit sessionId ownerUserId now tbl).2,
      claimMatches sessionId ownerUserId now r = false := by
  intro r hr
  simp only [claimRawModalSessionForSubmit, List.mem_map] at hr
  obtain ⟨r0, _, rfl⟩ := hr
  unfold rawModalClaimStep
  by_cases h : claimMatches sessionId ownerUserId now r0 = true
  · rw [if_pos h]
    simp [claimMatches]
  · rw [if_neg h]
    exact Bool.eq_false_iff.mpr h

/-- Once no row satisfies the claim predicate, any number of further
identical claim attempts all fail and leave the table unchanged. -/
theorem runRawModalClaims_no_match (sessionId ownerUserId : List Char)
    (now : Int) (n : Nat) (tbl : RawModalSessionTable)
    (h : ∀ r ∈ tbl, claimMatches sessionId ownerUserId now r = false) :
    runRawModalClaims sessionId ownerUserId now n tbl = (0, tbl) := by
  induction n with
  | zero => rfl
  | succ m ih =>
    have hclaim := claimRawModalSessionForSubmit_no_match sessionId ownerUserId now tbl h
    simp only [runRawModalClaims, hclaim, ih]
    simp

/-- A successful lookup returns a member row carrying the looked-up
SESSION_ID. -/
theorem getRawModalSessionRecord_some (sessionId : List Char)
    (tbl : RawModalSessionTable) (s : RawModalSessionRecord)
    (hget : getRawModalSessionRecord sessionId tbl = some s) :
    s ∈ tbl ∧ s.sessionId = sessionId := by
  refine ⟨List.mem_of_find?_eq_some hget, ?_⟩
  have := List.find?_some hget
  exact of_decide_eq_true this

/-- When the stored row found for the session is OPEN, owned by the
caller and unexpired, the claim UPDATE rewrites exactly that row to
SUBMITTED as seen by a subsequent lookup. -/
theorem getRawModalSessionRecord_after_claim (sessionId ownerUserId : List Char)
    (now : Int) (tbl : RawModalSessionTable) (s : RawModalSessionRecord)
    (hget : getRawModalSessionRecord sessionId tbl = some s)
    (howner : s.ownerUserId = ownerUserId)
    (hopen : s.status = RawModalSessionStatus.opened)
    (hlive : now < s.expiresAt) :
    getRawModalSessionRecord sessionId
        (claimRawModalSessionForSubmit sessionId ownerUserId now tbl).2 =
      some { s with status := RawModalSessionStatus.submitted } := by
  have hsid : s.sessionId = sessionId := (getRawModalSessionRecord_some _ _ _ hget).2
  have hm : claimMatches sessionId ownerUserId now s = true := by
    simp [claimMatches, hsid, howner, hopen, hlive]
  have hmap := getRawModalSessionRecord_map sessionId
    (rawModalClaimStep sessionId ownerUserId now)
    (rawModalClaimStep_sessionId sessionId ownerUserId now) tbl
  simp only [claimRawModalSessionForSubmit]
  rw [hmap, hget, Option.map_some']
  unfold rawModalClaimStep
  rw [if_pos hm]

/-- C1: for every open, unexpired session owned by ownerUserId, when N
concurrent calls to claimRawModalSessionForSubmit with identical
arguments race on it, exactly one call returns true, the other N minus
one return false, and the session ends SUBMITTED.  Each call is the
single atomic conditional UPDATE of the source, so every interleaving of
the N concurrent calls is some serial order of N such store transitions,
which runRawModalClaims ranges over. -/
theorem rawModalClaim_exactly_one_concurrent_winner
    (sessionId ownerUserId : List Char) (now : Int) (n : Nat)
    (tbl : RawModalSessionTable) (s : RawModalSessionRecord)
    (hn : 1 ≤ n)
    (hget : getRawModalSessionRecord sessionId tbl = some s)
    (howner : s.ownerUserId = ownerUserId)
    (hopen : s.status = RawModalSessionStatus.opened)
    (hlive : now < s.expiresAt) :
    (runRawModalClaims sessionId ownerUserId now n tbl).1 = 1 ∧
      getRawModalSessionRecord sessionId
          (runRawModalClaims sessionId ownerUserId now n tbl).2 =
        some { s with status := RawModalSessionStatus.submitted } := by
  obtain ⟨m, rfl⟩ : ∃ m, n = m + 1 := ⟨n - 1, by omega⟩
  obtain ⟨hmem, hsid⟩ := getRawModalSessionRecord_some sessionId tbl s hget
  have hm : claimMatches sessionId ownerUserId now s = true := by
    simp [claimMatches, hsid, howner, hopen, hlive]
  have hclaim1 : (claimRawModalSessionForSubmit sessionId ownerUserId now tbl).1 = true :=
    List.any_eq_true.mpr ⟨s, hmem, hm⟩
  have hpost := claimRawModalSessionForSubmit_post sessionId ownerUserId now tbl
  have hrest := runRawModalClaims_no_match sessionId ownerUserId now m _ hpost
  have hafter := getRawModalSessionRecord_after_claim sessionId ownerUserId now
    tbl s hget howner hopen hlive
  constructor
  · simp only [runRawModalClaims, hclaim1, hrest]
    simp
  · simp only [runRawModalClaims, hrest]
    exact hafter

/-- Witness for C1 on a concrete store: three racing claims on the
sample open session produce exactly one success and leave it
SUBMITTED. -/
theorem rawModalClaim_exactly_one_concurrent_winner_witness :
    (runRawModalClaims "s1".data "u1".data 0 3 [sampleOpenRawModalSession]).1 = 1 ∧
      getRawModalSessionRecord "s1".data
          (runRawModalClaims "s1".data "u1".data 0 3 [sampleOpenRawModalSession]).2 =
        some { sampleOpenRawModalSession with status := RawModalSessionStatus.submitted } :=
  rawModalClaim_exactly_one_concurrent_winner "s1".data "u1".data 0 3
    [sampleOpenRawModalSession] sampleOpenRawModalSession
    (by decide) (by decide) (by decide) (by decide) (by decide)

/-- C2: claimRawModalSessionForSubmit succeeds exactly when some stored
row has the given SESSION_ID and OWNER_USER_ID, status OPEN and an
expiry strictly after now; a failed claim changes no row; and when the
stored session satisfies the precondition its status is flipped to
SUBMITTED.  No-rows-matched surfaces as the boolean false of the first
component, never as an error, the operation being total. -/
theorem claimRawModalSessionForSubmit_conditional_write
    (sessionId ownerUserId : List Char) (now : Int)
    (tbl : RawModalSessionTable) :
    ((claimRawModalSessionForSubmit sessionId ownerUserId now tbl).1 = true ↔
      ∃ r ∈ tbl, r.sessionId = sessionId ∧ r.ownerUserId = ownerUserId ∧
        r.status = RawModalSessionStatus.opened ∧ now < r.expiresAt) ∧
    ((claimRawModalSessionForSubmit sessionId ownerUserId now tbl).1 = false →
      (claimRawModalSessionForSubmit sessionId ownerUserId now tbl).2 = tbl) ∧
    (∀ s, getRawModalSessionRecord sessionId tbl = some s →
      s.ownerUserId = ownerUserId → s.status = RawModalSessionStatus.opened →
      now < s.expiresAt →
      getRawModalSessionRecord sessionId
          (claimRawModalSessionForSubmit sessionId ownerUserId now tbl).2 =
        some { s with status := RawModalSessionStatus.submitted }) := by
  refine ⟨?_, ?_, ?_⟩
  · show tbl.any (claimMatches sessionId ownerUserId now) = true ↔ _
    rw [List.any_eq_true]
    constructor
    · rintro ⟨r, hr, hp⟩
      exact ⟨r, hr, of_decide_eq_true hp⟩
    · rintro ⟨r, hr, hp⟩
      exact ⟨r, hr, decide_eq_true hp⟩
  · intro h
    have hall : ∀ r ∈ tbl, claimMatches sessionId ownerUserId now r = false := by
      intro r hr
      have := List.any_eq_false.mp h r hr
      exact Bool.eq_false_iff.mpr this
    have := claimRawModalSessionForSubmit_no_match sessionId ownerUserId now tbl hall
    exact congrArg Prod.snd this
  · intro s hget howner hopen hlive
    exact getRawModalSessionRecord_after_claim sessionId ownerUserId now tbl s
      hget howner hopen hlive

/-- Witness for C2 on a concrete store: the claim against the sample
open session succeeds, and the flipped row is what a lookup then
returns. -/
theorem claimRawModalSessionForSubmit_conditional_write_witness :
    (claimRawModalSessionForSubmit "s1".data "u1".data 0
        [sampleOpenRawModalSession]).1 = true ∧
      getRawModalSessionRecord "s1".data
          (claimRawModalSessionForSubmit "s1".data "u1".data 0
            [sampleOpenRawModalSession]).2 =
        some { sampleOpenRawModalSession with
               status := RawModalSessionStatus.submitted } := by
  have h := claimRawModalSessionForSubmit_conditional_write "s1".data "u1".data 0
    [sampleOpenRawModalSession]
  refine ⟨h.1.mpr ⟨sampleOpenRawModalSession, by decide, by decide, by decide,
    by decide, by decide⟩, h.2.2 sampleOpenRawModalSession (by decide) (by decide)
    (by decide) (by decide)⟩

/-- C3 counterexample: status is not monotonic under the SessionStore
operations.  On a store holding the sample session already SUBMITTED,
updateRawModalSessionStatus back to OPEN succeeds (returns true) and the
subsequent lookup sees the session OPEN again, a transition out of
SUBMITTED, because the source UPDATE has no status guard. -/
theorem rawModalStatus_not_monotonic_counterexample :
    (updateRawModalSessionStatus "s1".data RawModalSessionStatus.opened
        [{ sampleOpenRawModalSession with
           status := RawModalSessionStatus.submitted }]).1 = true ∧
      getRawModalSessionRecord "s1".data
          (updateRawModalSessionStatus "s1".data RawModalSessionStatus.opened
            [{ sampleOpenRawModalSession with
               status := RawModalSessionStatus.submitted }]).2 =
        some sampleOpenRawModalSession := by
  decide

/-- C3 amended: the conditional claim UPDATE is monotonic, only ever
rewriting a row from OPEN to SUBMITTED and leaving every other row
untouched, while updateRawModalSessionStatus (and therefore
expireRawModalSession) overwrites the status of the addressed rows
unconditionally, whatever status they held. -/
theorem rawModalStatus_transitions
    (sessionId ownerUserId : List Char) (now : Int)
    (status : RawModalSessionStatus) (tbl : RawModalSessionTable) :
    List.Forall₂ (fun r r2 => r2 = r ∨
        (r.status = RawModalSessionStatus.opened ∧
          r2 = { r with status := RawModalSessionStatus.submitted })) tbl
      (claimRawModalSessionForSubmit sessionId ownerUserId now tbl).2 ∧
    List.Forall₂ (fun r r2 => r2 = r ∨ r2 = { r with status := status }) tbl
      (updateRawModalSessionStatus sessionId status tbl).2 := by
  constructor
  · show List.Forall₂ _ tbl (tbl.map _)
    rw [List.forall₂_map_right_iff, List.forall₂_same]
    intro r _
    unfold rawModalClaimStep
    by_cases h : claimMatches sessionId ownerUserId now r = true
    · rw [if_pos h]
      exact Or.inr ⟨(of_decide_eq_true h).2.2.1, rfl⟩
    · rw [if_neg h]
      exact Or.inl rfl
  · show List.Forall₂ _ tbl (tbl.map _)
    rw [List.forall₂_map_right_iff, List.forall₂_same]
    intro r _
    unfold rawModalSetStatusStep
    by_cases h : r.sessionId = sessionId
    · rw [if_pos (decide_eq_true h)]
      exact Or.inr rfl
    · rw [if_neg (by simp [h])]
      exact Or.inl rfl

/-- Counting the rows a predicate selects and keeping the rows it
rejects together account for the whole table. -/
theorem countP_add_filter_not_length {α : Type} (p : α → Bool) (l : List α) :
    l.countP p + (l.filter (fun a => ! p a)).length = l.length := by
  induction l with
  | nil => rfl
  | cons a rest ih =>
    by_cases h : p a = true
    · simp [List.countP_cons, List.filter_cons, h, ← ih]
      omega
    · have h2 : p a = false := Bool.eq_false_iff.mpr h
      simp [List.countP_cons, List.filter_cons, h2, ← ih]
      omega

/-- C7: deleteExpiredRawModalSessions keeps exactly the rows that are
not both stale (EXPIRES_AT before the cutoff) and in status OPEN or
EXPIRED, reports as its count precisely the number of rows removed, and
retains every SUBMITTED row whatever its expiry. -/
theorem deleteExpiredRawModalSessions_spec (cutoffDate : Int)
    (tbl : RawModalSessionTable) :
    (∀ r, r ∈ (deleteExpiredRawModalSessions cutoffDate tbl).2 ↔
      r ∈ tbl ∧ ¬ (r.expiresAt < cutoffDate ∧
        (r.status = RawModalSessionStatus.opened ∨
          r.status = RawModalSessionStatus.expired))) ∧
    (deleteExpiredRawModalSessions cutoffDate tbl).1 +
        (deleteExpiredRawModalSessions cutoffDate tbl).2.length = tbl.length ∧
    (∀ r, r ∈ tbl → r.status = RawModalSessionStatus.submitted →
      r ∈ (deleteExpiredRawModalSessions cutoffDate tbl).2) := by
  refine ⟨?_, ?_, ?_⟩
  · intro r
    show r ∈ tbl.filter _ ↔ _
    rw [List.mem_filter]
    constructor
    · rintro ⟨hr, hp⟩
      refine ⟨hr, ?_⟩
      have : sweepRemoves cutoffDate r = false := by
        cases hsw : sweepRemoves cutoffDate r
        · rfl
        · rw [hsw] at hp; exact absurd hp (by decide)
      exact of_decide_eq_false this
    · rintro ⟨hr, hp⟩
      refine ⟨hr, ?_⟩
      have : sweepRemoves cutoffDate r = false := decide_eq_false hp
      rw [this]
      rfl
  · exact countP_add_filter_not_length (sweepRemoves cutoffDate) tbl
  · intro r hr hsub
    show r ∈ tbl.filter _
    rw [List.mem_filter]
    refine ⟨hr, ?_⟩
    have : sweepRemoves cutoffDate r = false := by
      apply decide_eq_false
      rintro ⟨_, hstat | hstat⟩ <;> rw [hsub] at hstat <;> cases hstat
    rw [this]
    rfl

/-- Witness for C7 on a concrete store: with the sample OPEN session and
its SUBMITTED twin both stale against cutoff 200, the sweep retains the
SUBMITTED row. -/
theorem deleteExpiredRawModalSessions_spec_witness :
    { sampleOpenRawModalSession with
      status := RawModalSessionStatus.submitted } ∈
      (deleteExpiredRawModalSessions 200
        [sampleOpenRawModalSession,
          { sampleOpenRawModalSession with
            status := RawModalSessionStatus.submitted }]).2 :=
  (deleteExpiredRawModalSessions_spec 200
      [sampleOpenRawModalSession,
        { sampleOpenRawModalSession with
          status := RawModalSessionStatus.submitted }]).2.2
    { sampleOpenRawModalSession with
      status := RawModalSessionStatus.submitted } (by decide) (by decide)

/-- Expiring a session rewrites the row a lookup finds to EXPIRED. -/
theorem getRawModalSessionRecord_after_expire (sessionId : List Char)
    (tbl : RawModalSessionTable) (s : RawModalSessionRecord)
    (hget : getRawModalSessionRecord sessionId tbl = some s) :
    getRawModalSessionRecord sessionId (expireRawModalSession sessionId tbl).2 =
      some { s with status := RawModalSessionStatus.expired } := by
  have hsid : s.sessionId = sessionId := (getRawModalSessionRecord_some _ _ _ hget).2
  have hf : ∀ r, (rawModalSetStatusStep sessionId RawModalSessionStatus.expired r).sessionId = r.sessionId := by
    intro r
    unfold rawModalSetStatusStep
    split <;> rfl
  show getRawModalSessionRecord sessionId
    (tbl.map (rawModalSetStatusStep sessionId RawModalSessionStatus.expired)) = _
  rw [getRawModalSessionRecord_map sessionId _ hf tbl, hget, Option.map_some']
  unfold rawModalSetStatusStep
  rw [if_pos (decide_eq_true hsid)]

/-- C4 amended: a submission from the owner against a stored session
that is still OPEN but past its expiry makes the router expire the
session and reply with the expiry message; a second owner submission
afterwards, the session now EXPIRED with its deadline still in the past,
replies with the expiry message again (the liveness check precedes the
status check and still fires), leaving the store unchanged, and in
particular does not reply with the session-not-found message. -/
theorem handleManagedRawModalSubmit_expiry_path
    (sessionId userId : List Char) (now : Int) (tbl : RawModalSessionTable)
    (s : RawModalSessionRecord)
    (hget : getRawModalSessionRecord sessionId tbl = some s)
    (howner : s.ownerUserId = userId)
    (hopen : s.status = RawModalSessionStatus.opened)
    (hpast : s.expiresAt ≤ now) :
    handleManagedRawModalSubmit sessionId userId now true tbl =
      (RawModalSubmitReply.sessionExpired,
        (expireRawModalSession sessionId tbl).2) ∧
    getRawModalSessionRecord sessionId (expireRawModalSession sessionId tbl).2 =
      some { s with status := RawModalSessionStatus.expired } ∧
    (∀ now2, s.expiresAt ≤ now2 →
      handleManagedRawModalSubmit sessionId userId now2 true
          (expireRawModalSession sessionId tbl).2 =
        (RawModalSubmitReply.sessionExpired,
          (expireRawModalSession sessionId tbl).2)) := by
  have hsid : s.sessionId = sessionId := (getRawModalSessionRecord_some _ _ _ hget).2
  have hexp := getRawModalSessionRecord_after_expire sessionId tbl s hget
  refine ⟨?_, hexp, ?_⟩
  · have h1 : isRawModalSessionExpired s.expiresAt now = true := decide_eq_true hpast
    simp [handleManagedRawModalSubmit, hget, howner, hopen, hsid, h1]
  · intro now2 h2
    have h1 : isRawModalSessionExpired s.expiresAt now2 = true := decide_eq_true h2
    simp [handleManagedRawModalSubmit, hexp, howner, h1]

/-- Witness for the amended C4 on a concrete store: the sample session,
expired relative to instant 200, is expired by the first submission and
the second submission at instant 300 replies with the expiry message
again. -/
theorem handleManagedRawModalSubmit_expiry_path_witness :
    handleManagedRawModalSubmit "s1".data "u1".data 200 true
        [sampleOpenRawModalSession] =
      (RawModalSubmitReply.sessionExpired,
        (expireRawModalSession "s1".data [sampleOpenRawModalSession]).2) ∧
    getRawModalSessionRecord "s1".data
        (expireRawModalSession "s1".data [sampleOpenRawModalSession]).2 =
      some { sampleOpenRawModalSession with
             status := RawModalSessionStatus.expired } ∧
    (∀ now2, sampleOpenRawModalSession.expiresAt ≤ now2 →
      handleManagedRawModalSubmit "s1".data "u1".data now2 true
          (expireRawModalSession "s1".data [sampleOpenRawModalSession]).2 =
        (RawModalSubmitReply.sessionExpired,
          (expireRawModalSession "s1".data [sampleOpenRawModalSession]).2)) :=
  handleManagedRawModalSubmit_expiry_path "s1".data "u1".data 200
    [sampleOpenRawModalSession] sampleOpenRawModalSession
    (by decide) (by decide) (by decide) (by decide)

/-- C4 counterexample: after the first submission has expired the sample
session, a second owner submission with the deadline still past replies
with the expiry message and not with the no-longer-active status-path
message the claim asserts. -/
theorem routerSecondSubmit_not_statusPath_counterexample :
    (handleManagedRawModalSubmit "s1".data "u1".data 300 true
        (handleManagedRawModalSubmit "s1".data "u1".data 200 true
          [sampleOpenRawModalSession]).2).1 =
      RawModalSubmitReply.sessionExpired ∧
    (handleManagedRawModalSubmit "s1".data "u1".data 300 true
        (handleManagedRawModalSubmit "s1".data "u1".data 200 true
          [sampleOpenRawModalSession]).2).1 ≠
      RawModalSubmitReply.notActive := by
  decide

/-- C8 counterexample: a single-choice radio group field whose value is
the string accept is rejected by validateModalField, the validator the
router runs on submissions, with the unsupported-kind reason, against
the claim that this validator accepts string-valued radio fields. -/
theorem radioGroup_rejected_by_router_validator_counterexample :
    (validateModalField
      { customId := JsVal.vStr "f1".data,
        type := DiscordComponentType.radioGroup,
        value := JsVal.vStr "accept".data,
        values := JsVal.vUndefined,
        attachmentKeys := [] }).ok = false ∧
    (validateModalField
      { customId := JsVal.vStr "f1".data,
        type := DiscordComponentType.radioGroup,
        value := JsVal.vStr "accept".data,
        values := JsVal.vUndefined,
        attachmentKeys := [] }).reason =
      some "unsupported modal field type" := by
  constructor <;> rfl

/-- C8 amended: the router-side validator validateModalField rejects
every radio group field whatever its value, because its switch has no
radio case; the string-or-null rule of the claim is implemented only in
the API-service validator validateSubmitComponents, whose per-component
check accepts a radio group field with an in-range custom id exactly
when its value is null or a string. -/
theorem radioGroup_field_validation (resolvedAttachmentIds : List (List Char))
    (c : RawModalField) (hty : c.type = DiscordComponentType.radioGroup) :
    (validateModalField c).ok = false ∧
    (∀ cid, c.customId = JsVal.vStr cid → 0 < cid.length → cid.length ≤ 100 →
      ((validateSubmitComponentEntry resolvedAttachmentIds c).ok = true ↔
        (c.value = JsVal.vNull ∨ ∃ s, c.value = JsVal.vStr s))) := by
  constructor
  · cases hc2 : (validateCustomId c.customId).ok with
    | false => simp [validateModalField, hc2]
    | true => simp [validateModalField, hc2, hty]
  · intro cid hcid hpos hle
    simp only [validateSubmitComponentEntry, hcid, hty]
    rw [if_neg (by omega)]
    cases hv : c.value <;> simp

/-- Witness for the amended C8 on a concrete field: the string-valued
radio group with custom id f1 fails the router-side validator and
passes the API-service component check. -/
theorem radioGroup_field_validation_witness :
    (validateModalField
      { customId := JsVal.vStr "f1".data,
        type := DiscordComponentType.radioGroup,
        value := JsVal.vStr "skip".data,
        values := JsVal.vUndefined,
        attachmentKeys := [] }).ok = false ∧
    (validateSubmitComponentEntry []
      { customId := JsVal.vStr "f1".data,
        type := DiscordComponentType.radioGroup,
        value := JsVal.vStr "skip".data,
        values := JsVal.vUndefined,
        attachmentKeys := [] }).ok = true := by
  have h := radioGroup_field_validation []
    { customId := JsVal.vStr "f1".data,
      type := DiscordComponentType.radioGroup,
      value := JsVal.vStr "skip".data,
      values := JsVal.vUndefined,
      attachmentKeys := [] } rfl
  exact ⟨h.1, (h.2 "f1".data rfl (by decide) (by decide)).mpr
    (Or.inr ⟨"skip".data, rfl⟩)⟩

/-- A custom id buildRawModalCustomId returns is non-empty and within
the 100-character transport ceiling. -/
theorem buildRawModalCustomId_ok_bounds (parts : RawModalCustomIdParts)
    (c : List Char) (h : buildRawModalCustomId parts = Except.ok c) :
    c ≠ [] ∧ c.length ≤ 100 := by
  simp only [buildRawModalCustomId] at h
  split_ifs at h with h1 h2 h3 h4
  all_goals cases h
  constructor
  · simp [joinColon, RAW_MODAL_CUSTOM_ID_HEAD]
  · simp only [MAX_DISCORD_CUSTOM_ID_LENGTH, not_lt] at h4
    exact h4

/-- C9 counterexample: openModal accepts the suggestion review-decision
open request, whose override custom id is outside the managed encoding:
the attached identifier is the suggestion-review id, it does not decode
under parseRawModalCustomId, and buildRawModalCustomId of the request
fields does not even produce an identifier (review-decision fails its
flow check). -/
theorem openModal_customId_override_counterexample :
    (openModalCustomId
        { feature := "suggestion".data, flow := "review-decision".data,
          sessionId := "suggestion-45".data,
          customId := some (buildSuggestionReviewDecisionModalId "123".data 45) }).toOption =
      some "suggestion-review-decision:123:45".data ∧
    parseRawModalCustomId "suggestion-review-decision:123:45".data = none ∧
    (buildRawModalCustomId
        { feature := "suggestion".data, flow := "review-decision".data,
          sessionId := "suggestion-45".data }).toOption = none := by
  refine ⟨?_, ?_, ?_⟩ <;> decide

/-- C9 amended: when the open request carries no override, the custom id
openModal attaches is exactly buildRawModalCustomId of the request's
feature, flow and sessionId (errors included); but a request may supply
any non-empty override of at most 100 characters and openModal attaches
it unchanged, so open requests are not confined to the managed
encoding. -/
theorem openModalCustomId_spec :
    (∀ r : RawModalOpenRequest, r.customId = none →
      openModalCustomId r = buildRawModalCustomId
        { feature := r.feature, flow := r.flow, sessionId := r.sessionId }) ∧
    (∀ r : RawModalOpenRequest, ∀ c, r.customId = some c → c ≠ [] →
      c.length ≤ 100 → openModalCustomId r = Except.ok c) := by
  constructor
  · intro r hr
    simp only [openModalCustomId, hr]
    rcases hb : buildRawModalCustomId
      { feature := r.feature, flow := r.flow, sessionId := r.sessionId } with e | c
    · rfl
    · obtain ⟨hne, hle⟩ := buildRawModalCustomId_ok_bounds _ _ hb
      simp only []
      rw [if_neg]
      push_neg
      exact ⟨hne, by omega⟩
  · intro r c hr hne hle
    simp only [openModalCustomId, hr]
    rw [if_neg]
    push_neg
    exact ⟨hne, by omega⟩

/-- Witness for the amended C9: a request without override gets the
built identifier, and the concrete suggestion-review override request
gets its override back unchanged. -/
theorem openModalCustomId_spec_witness :
    openModalCustomId { feature := "todo".data, flow := "create".data,
                        sessionId := "abc".data, customId := none } =
      buildRawModalCustomId { feature := "todo".data, flow := "create".data,
                              sessionId := "abc".data } ∧
    openModalCustomId { feature := "suggestion".data,
                        flow := "review-decision".data,
                        sessionId := "suggestion-45".data,
                        customId := some "suggestion-review-decision:123:45".data } =
      Except.ok "suggestion-review-decision:123:45".data :=
  ⟨openModalCustomId_spec.1 _ rfl,
    openModalCustomId_spec.2 _ _ rfl (by decide) (by decide)⟩

/-- A feature outside the pilot list makes the gate answer false in
every environment: the global-switch branch and the pilot-feature branch
both return false. -/
theorem isRawModalPilotEnabled_false_of_not_pilot (env : RawModalEnv)
    (feature : List Char) (guildId : Option (List Char))
    (hfeat : isRawModalPilotFeature feature = false) :
    isRawModalPilotEnabled env feature guildId = false := by
  unfold isRawModalPilotEnabled
  by_cases he : isRawImprovedModalsEnabled env = true
  · rw [if_neg (by simp [he]), if_pos (by simp [hfeat])]
  · rw [if_pos (by simp [Bool.eq_false_iff.mpr he])]

/-- C10: whatever the environment configuration and guild, the pilot
gate answers false for the features nominate and round-history, since
RAW_MODAL_PILOT_FEATURES holds only todo and suggestion; consequently
the managed router leaves every decodable event of those two features
unhandled, returning handled false at the gate. -/
theorem rawModalPilot_excludes_nominate_and_round_history :
    (∀ (env : RawModalEnv) (guildId : Option (List Char)),
      isRawModalPilotEnabled env "nominate".data guildId = false ∧
      isRawModalPilotEnabled env "round-history".data guildId = false) ∧
    (∀ (env : RawModalEnv) (cid : List Char) (guildId : Option (List Char))
        (isModalSubmit : Bool) (p : RawModalParsedCustomId),
      parseRawModalCustomId cid = some p →
      (p.feature = "nominate".data ∨ p.feature = "round-history".data) →
      dispatchHandled
          (tryHandleManagedRawModalDispatch env (some cid) guildId
            isModalSubmit) = false) := by
  have hnom : isRawModalPilotFeature "nominate".data = false := by decide
  have hrh : isRawModalPilotFeature "round-history".data = false := by decide
  refine ⟨fun env guildId => ⟨isRawModalPilotEnabled_false_of_not_pilot env _ guildId hnom,
    isRawModalPilotEnabled_false_of_not_pilot env _ guildId hrh⟩, ?_⟩
  intro env cid guildId isModalSubmit p hparse hfeat
  unfold tryHandleManagedRawModalDispatch
  dsimp only
  by_cases hpre : startsWithSeq cid (RAW_MODAL_CUSTOM_ID_HEAD ++ [':']) = true
  · rw [if_neg (by simp [hpre]), hparse]
    dsimp only
    have hgate : isRawModalPilotEnabled env p.feature guildId = false := by
      rcases hfeat with h | h <;>
        exact h ▸ isRawModalPilotEnabled_false_of_not_pilot env _ guildId (by decide)
    rw [if_pos (by simp [hgate])]
    rfl
  · rw [if_pos (by simp [Bool.eq_false_iff.mpr hpre])]
    rfl

/-- Witness for C10: with the pilot fully enabled for all guilds, a
decodable nominate submission identifier is still left unhandled by the
dispatcher. -/
theorem rawModalPilot_excludes_nominate_and_round_history_witness :
    isRawModalPilotEnabled
        { useRawImprovedModals := some "true".data,
          rawModalPilotGuildIds := some "*".data } "nominate".data
        (some "g1".data) = false ∧
    dispatchHandled
        (tryHandleManagedRawModalDispatch
          { useRawImprovedModals := some "true".data,
            rawModalPilotGuildIds := some "*".data }
          (some "modal:nominate:v1:create:abc".data) (some "g1".data)
          true) = false := by
  have h := rawModalPilot_excludes_nominate_and_round_history
  refine ⟨(h.1 _ (some "g1".data)).1, h.2 _ "modal:nominate:v1:create:abc".data
    (some "g1".data) true
    { feature := "nominate".data, flow := "create".data,
      sessionId := "abc".data, version := 1 } (by decide) (Or.inl rfl)⟩

/-- Splitting at the first separator after a separator-free block yields
that block as the first segment. -/
theorem splitOnChar_append_cons (sep : Char) (a rest : List Char)
    (h : ∀ c ∈ a, c ≠ sep) :
    splitOnChar sep (a ++ sep :: rest) = a :: splitOnChar sep rest := by
  induction a with
  | nil => simp [splitOnChar]
  | cons c a ih =>
    have hc : c ≠ sep := h c (List.mem_cons_self c a)
    have ha : ∀ x ∈ a, x ≠ sep := fun x hx => h x (List.mem_cons_of_mem c hx)
    simp only [List.cons_append, splitOnChar, List.append_eq]
    rw [if_neg hc, ih ha]

/-- A separator-free sequence splits into the single segment it is. -/
theorem splitOnChar_no_sep (sep : Char) (a : List Char)
    (h : ∀ c ∈ a, c ≠ sep) :
    splitOnChar sep a = [a] := by
  induction a with
  | nil => rfl
  | cons c a ih =>
    have hc : c ≠ sep := h c (List.mem_cons_self c a)
    have ha : ∀ x ∈ a, x ≠ sep := fun x hx => h x (List.mem_cons_of_mem c hx)
    simp only [splitOnChar]
    rw [if_neg hc, ih ha]

/-- Valid session ids contain no colon and are non-empty. -/
theorem isSessionIdValid_colon_free (sessionId : List Char)
    (h : isSessionIdValid sessionId = true) :
    sessionId ≠ [] ∧ ∀ c ∈ sessionId, c ≠ ':' := by
  unfold isSessionIdValid at h
  rw [Bool.and_eq_true] at h
  obtain ⟨hlen, hall⟩ := h
  have hlen2 := of_decide_eq_true hlen
  constructor
  · intro hnil
    rw [hnil] at hlen2
    simp at hlen2
  · intro c hc hcol
    have := List.all_eq_true.mp hall c hc
    rw [hcol] at this
    exact absurd this (by decide)

/-- C5 counterexample: the pair suggestion and review-decision lies in
the closed vocabulary (RAW_MODAL_SUPPORTED_FEATURES times the
RawModalFlow union), the session id abc is well-formed and the composed
identifier would be well within 100 characters, yet buildRawModalCustomId
produces no identifier: its flow check accepts only the todo pilot
flows, so the build throws instead of round-tripping. -/
theorem buildRawModalCustomId_review_decision_counterexample :
    "suggestion".data ∈ RAW_MODAL_SUPPORTED_FEATURES ∧
    "review-decision".data ∈ RAW_MODAL_FLOWS ∧
    isSessionIdValid "abc".data = true ∧
    (buildRawModalCustomId
        { feature := "suggestion".data, flow := "review-decision".data,
          sessionId := "abc".data }).toOption = none := by
  refine ⟨by decide, by decide, by decide, by decide⟩

/-- C5 amended: for every feature of the supported vocabulary, every
flow of the todo pilot flow list (the only flows the codec accepts),
every valid session id and a composed length within the 100-character
ceiling, buildRawModalCustomId succeeds and parseRawModalCustomId
returns exactly the feature, flow and session id with the current schema
version. -/
theorem buildRawModalCustomId_parse_roundtrip
    (feature flow sessionId : List Char)
    (hf : feature ∈ RAW_MODAL_SUPPORTED_FEATURES)
    (hfl : flow ∈ RAW_MODAL_TODO_PILOT_FLOWS)
    (hsid : isSessionIdValid sessionId = true)
    (hlen : feature.length + flow.length + sessionId.length + 11 ≤ 100) :
    ∃ cid,
      buildRawModalCustomId
          { feature := feature, flow := flow, sessionId := sessionId } =
        Except.ok cid ∧
      parseRawModalCustomId cid =
        some { feature := feature, flow := flow, sessionId := sessionId,
               version := 1 } := by
  have hfcol : ∀ c ∈ feature, c ≠ ':' := by
    have hall : ∀ f ∈ RAW_MODAL_SUPPORTED_FEATURES, ∀ c ∈ f, c ≠ ':' := by decide
    exact hall feature hf
  have hflcol : ∀ c ∈ flow, c ≠ ':' := by
    have hall : ∀ f ∈ RAW_MODAL_TODO_PILOT_FLOWS, ∀ c ∈ f, c ≠ ':' := by decide
    exact hall flow hfl
  have hfne : feature ≠ [] := by
    have hall : ∀ f ∈ RAW_MODAL_SUPPORTED_FEATURES, f ≠ [] := by decide
    exact hall feature hf
  have hflne : flow ≠ [] := by
    have hall : ∀ f ∈ RAW_MODAL_TODO_PILOT_FLOWS, f ≠ [] := by decide
    exact hall flow hfl
  obtain ⟨hsne, hscol⟩ := isSessionIdValid_colon_free sessionId hsid
  refine ⟨joinColon [RAW_MODAL_CUSTOM_ID_HEAD, feature,
    'v' :: Nat.toDigits 10 RAW_MODAL_SCHEMA_VERSION, flow, sessionId], ?_, ?_⟩
  · have hlencid : (joinColon [RAW_MODAL_CUSTOM_ID_HEAD, feature,
        'v' :: Nat.toDigits 10 RAW_MODAL_SCHEMA_VERSION, flow,
        sessionId]).length =
        feature.length + flow.length + sessionId.length + 11 := by
      have h5 : RAW_MODAL_CUSTOM_ID_HEAD.length = 5 := rfl
      have h2 : ('v' :: Nat.toDigits 10 RAW_MODAL_SCHEMA_VERSION).length = 2 := rfl
      simp only [joinColon, List.length_append, List.length_cons, h5, h2]
      omega
    simp only [buildRawModalCustomId]
    rw [if_neg (not_not_intro (show isSupportedFeature feature = true from
        decide_eq_true hf)),
      if_neg (not_not_intro (show isSupportedFlow flow = true from
        decide_eq_true hfl)),
      if_neg (not_not_intro hsid),
      if_neg (by rw [hlencid]; simp only [MAX_DISCORD_CUSTOM_ID_LENGTH, not_lt]; omega)]
  · have hjoin : joinColon [RAW_MODAL_CUSTOM_ID_HEAD, feature,
        'v' :: Nat.toDigits 10 RAW_MODAL_SCHEMA_VERSION, flow, sessionId] =
        RAW_MODAL_CUSTOM_ID_HEAD ++ ':' :: (feature ++ ':' ::
          (('v' :: Nat.toDigits 10 RAW_MODAL_SCHEMA_VERSION) ++ ':' ::
            (flow ++ ':' :: sessionId))) := rfl
    have hsplit : splitOnChar ':' (joinColon [RAW_MODAL_CUSTOM_ID_HEAD, feature,
        'v' :: Nat.toDigits 10 RAW_MODAL_SCHEMA_VERSION, flow, sessionId]) =
        [RAW_MODAL_CUSTOM_ID_HEAD, feature,
          'v' :: Nat.toDigits 10 RAW_MODAL_SCHEMA_VERSION, flow, sessionId] := by
      rw [hjoin,
        splitOnChar_append_cons ':' _ _ (by decide),
        splitOnChar_append_cons ':' _ _ hfcol,
        splitOnChar_append_cons ':' _ _ (by decide),
        splitOnChar_append_cons ':' _ _ hflcol,
        splitOnChar_no_sep ':' _ hscol]
    show parseRawModalSegments _ = _
    rw [hsplit]
    show parseRawModalFive _ _ _ _ _ = _
    unfold parseRawModalFive
    have hne0 : RAW_MODAL_CUSTOM_ID_HEAD ≠ [] := by decide
    have hne2 : ('v' :: Nat.toDigits 10 RAW_MODAL_SCHEMA_VERSION) ≠ [] := by decide
    rw [if_neg (by simp [hne0, hfne, hne2, hflne, hsne]),
      if_neg (by simp),
      if_neg (by simp [isSupportedFeature, isSupportedFlow, hf, hfl]),
      if_neg (by simp),
      if_neg (by simp [hsid])]
    rw [show parseIntDec (('v' :: Nat.toDigits 10 RAW_MODAL_SCHEMA_VERSION).drop 1) =
      some 1 from rfl]
    dsimp only
    rw [if_neg (by norm_num)]

/-- Witness for the amended C5 on concrete data: todo, create and the
session id abc build an identifier that decodes back to the same
fields at version 1. -/
theorem buildRawModalCustomId_parse_roundtrip_witness :
    ∃ cid,
      buildRawModalCustomId
          { feature := "todo".data, flow := "create".data,
            sessionId := "abc".data } = Except.ok cid ∧
      parseRawModalCustomId cid =
        some { feature := "todo".data, flow := "create".data,
               sessionId := "abc".data, version := 1 } :=
  buildRawModalCustomId_parse_roundtrip "todo".data "create".data "abc".data
    (by decide) (by decide) (by decide) (by decide)

/-- C6 counterexample: the decoder is not segment-count-strict and not
version-strict.  An identifier with six colon segments decodes non-null
(the sixth segment is silently ignored), and a version segment v1x also
decodes non-null (parseInt reads the leading digit run and ignores the
rest), both against the claim that any string off the five-segment
grammar with a well-formed version returns null. -/
theorem parseRawModalCustomId_grammar_counterexample :
    (splitOnChar ':' "modal:todo:v1:create:abc:extra".data).length = 6 ∧
    parseRawModalCustomId "modal:todo:v1:create:abc:extra".data =
      some { feature := "todo".data, flow := "create".data,
             sessionId := "abc".data, version := 1 } ∧
    parseRawModalCustomId "modal:todo:v1x:create:abc".data =
      some { feature := "todo".data, flow := "create".data,
             sessionId := "abc".data, version := 1 } := by
  refine ⟨by decide, by decide, by decide⟩

/-- C6 amended: parseRawModalCustomId is total and returns a non-null
result only when the first five colon segments satisfy the grammar: the
first segment is the modal prefix, the feature and flow segments belong
to the accepted vocabularies (the flow vocabulary being the todo pilot
list), the session id matches its charset and length rule, the version
segment starts with v followed by digits parsing to at least 1; but
segments beyond the fifth are ignored rather than rejected, and
characters after the leading digit run of the version are ignored. -/
theorem parseRawModalCustomId_sound (customId : List Char)
    (p : RawModalParsedCustomId)
    (h : parseRawModalCustomId customId = some p) :
    (splitOnChar ':' customId).getD 0 [] = RAW_MODAL_CUSTOM_ID_HEAD ∧
    p.feature ∈ RAW_MODAL_SUPPORTED_FEATURES ∧
    p.flow ∈ RAW_MODAL_TODO_PILOT_FLOWS ∧
    isSessionIdValid p.sessionId = true ∧
    ((splitOnChar ':' customId).getD 2 []).head? = some 'v' ∧
    1 ≤ p.version ∧
    p.feature = (splitOnChar ':' customId).getD 1 [] ∧
    p.flow = (splitOnChar ':' customId).getD 3 [] ∧
    p.sessionId = (splitOnChar ':' customId).getD 4 [] := by
  unfold parseRawModalCustomId parseRawModalSegments at h
  rcases hs : splitOnChar ':' customId with _ | ⟨p0, _ | ⟨p1, _ | ⟨p2, _ |
    ⟨p3, _ | ⟨p4, rest⟩⟩⟩⟩⟩ <;> rw [hs] at h <;> try cases h
  dsimp only at h
  unfold parseRawModalFive at h
  split_ifs at h with h1 h2 h3 h4 h5
  rcases hpi : parseIntDec (p2.drop 1) with _ | v <;> rw [hpi] at h
  · cases h
  · dsimp only at h
    split_ifs at h with h6
    injection h with h7
    subst h7
    refine ⟨?_, ?_, ?_, ?_, ?_, ?_, ?_, ?_, ?_⟩
    · exact not_not.mp h2
    · exact of_decide_eq_true h3.1
    · exact of_decide_eq_true h3.2
    · exact h5
    · exact not_not.mp h4
    · show (1 : Int) ≤ v
      omega
    · rfl
    · rfl
    · rfl

/-- Witness for the amended C6 on a concrete identifier: the decode of
the well-formed todo create identifier satisfies every structural
consequence of the soundness statement. -/
theorem parseRawModalCustomId_sound_witness :
    (splitOnChar ':' "modal:todo:v1:create:abc".data).getD 0 [] =
      RAW_MODAL_CUSTOM_ID_HEAD ∧
    "todo".data ∈ RAW_MODAL_SUPPORTED_FEATURES ∧
    "create".data ∈ RAW_MODAL_TODO_PILOT_FLOWS ∧
    isSessionIdValid "abc".data = true ∧
    ((splitOnChar ':' "modal:todo:v1:create:abc".data).getD 2 []).head? =
      some 'v' ∧
    (1 : Int) ≤ 1 ∧
    "todo".data = (splitOnChar ':' "modal:todo:v1:create:abc".data).getD 1 [] ∧
    "create".data =
      (splitOnChar ':' "modal:todo:v1:create:abc".data).getD 3 [] ∧
    "abc".data = (splitOnChar ':' "modal:todo:v1:create:abc".data).getD 4 [] :=
  parseRawModalCustomId_sound "modal:todo:v1:create:abc".data
    { feature := "todo".data, flow := "create".data,
      sessionId := "abc".data, version := 1 } (by decide)
